import Mathlib

/-!
Verification of the request-routing and middleware pipeline of libreddit
(`src/main.rs`) against its natural-language specification.

The Rust program builds an actix-web `App` with, in registration order:
a `wrap_fn` that rewrites insecure-scheme responses into an HTTPS redirect,
a `NormalizePath` middleware (merge duplicate slashes, always append a
trailing slash), a `DefaultHeaders` middleware with four fixed security
headers, a default service (`utils::error("Nothing here")`) and a list of
routes.  In actix-web each later `wrap` call wraps everything registered
before it, so at request time the order is: DefaultHeaders (outermost) →
NormalizePath → the https `wrap_fn` → router.  The embedding below follows
that structure: requests, responses, the path normalizer, the segment
matcher over the registered route table, the three middleware layers, and
the permissive startup-argument parser.
-/

namespace Libreddit

/-- HTTP methods used by the registered routes (`web::get()` / `web::post()`). -/
inductive Method where
  | GET
  | POST
deriving DecidableEq, Repr

/-- A response: status code, header name/value pairs in order, and a body.
Payload bytes are represented as `String`. -/
structure Response where
  status : Nat
  headers : List (String × String)
  body : String
deriving DecidableEq, Repr

/-- The first header value recorded under `name`, if any
(actix `HeaderMap` lookup). -/
def headerVal (r : Response) (name : String) : Option String :=
  (r.headers.find? (fun p => p.1 == name)).map (fun p => p.2)

/-- `HttpResponse::Found().header("Location", url).finish()`:
a 302 Found redirect with a `Location` header and an empty body. -/
def found (url : String) : Response :=
  { status := 302, headers := [("Location", url)], body := "" }

/-- A single-quote character, used to build the CSP string. -/
def sq : String := ⟨[Char.ofNat 39]⟩

/-- The fixed `Content-Security-Policy` value from `main.rs`. -/
def csp : String :=
  "default-src " ++ sq ++ "none" ++ sq ++ "; manifest-src " ++ sq ++ "self" ++ sq ++
  "; media-src " ++ sq ++ "self" ++ sq ++ "; style-src " ++ sq ++ "self" ++ sq ++
  " " ++ sq ++ "unsafe-inline" ++ sq ++ "; base-uri " ++ sq ++ "none" ++ sq ++
  "; img-src " ++ sq ++ "self" ++ sq ++ " data:; form-action " ++ sq ++ "self" ++ sq ++
  "; frame-ancestors " ++ sq ++ "none" ++ sq ++ ";"

/-- Modelled from the spec: the compiled-in stylesheet payload
(`static/style.css` is not part of the examined material; only its
fixedness matters). -/
def style_css : String := "compiled-in:style.css"

/-- Modelled from the spec: the compiled-in PWA manifest payload
(`static/manifest.json` is not part of the examined material). -/
def manifest_json : String := "compiled-in:manifest.json"

/-- Modelled from the spec: the compiled-in PWA logo payload
(`static/logo.png` is not part of the examined material). -/
def logo_png : String := "compiled-in:logo.png"

/-- Modelled from the spec: the compiled-in iOS touch icon payload
(`static/touch-icon-iphone.png` is not part of the examined material). -/
def touch_icon_iphone_png : String := "compiled-in:touch-icon-iphone.png"

/-- Modelled from the spec: the compiled-in favicon payload
(`static/favicon.ico` is not part of the examined material). -/
def favicon_ico : String := "compiled-in:favicon.ico"

/-- `style()`: 200 with content-type `text/css` and the stylesheet body. -/
def style : Response :=
  { status := 200, headers := [("Content-Type", "text/css")], body := style_css }

/-- `manifest()`: 200 with content-type `application/json` and the manifest body. -/
def manifest : Response :=
  { status := 200, headers := [("Content-Type", "application/json")], body := manifest_json }

/-- `pwa_logo()`: 200 with content-type `image/png` and the logo bytes. -/
def pwa_logo : Response :=
  { status := 200, headers := [("Content-Type", "image/png")], body := logo_png }

/-- `iphone_logo()`: 200 with content-type `image/png` and the touch-icon bytes. -/
def iphone_logo : Response :=
  { status := 200, headers := [("Content-Type", "image/png")], body := touch_icon_iphone_png }

/-- `robots()`: 200 with a `Cache-Control` header and a fixed text body.
The builder sets no content type for this route. -/
def robots : Response :=
  { status := 200,
    headers := [("Cache-Control", "public, max-age=1209600, s-maxage=86400")],
    body := "User-agent: *\nAllow: /" }

/-- `favicon()`: 200 with content-type `image/x-icon`, a `Cache-Control`
header and the favicon bytes. -/
def favicon : Response :=
  { status := 200,
    headers := [("Content-Type", "image/x-icon"),
                ("Cache-Control", "public, max-age=1209600, s-maxage=86400")],
    body := favicon_ico }

/-- Modelled from the spec: `utils::error` (in `utils.rs`, not part of the
examined material) — the default responder returns a generic error page
with a non-success status. -/
def error (msg : String) : Response :=
  { status := 404, headers := [("Content-Type", "text/html")], body := msg }

/-- An incoming request as the pipeline sees it: method, the scheme and host
resolved from connection metadata (`connection_info()`), the URI path, and
the raw query part (empty, or starting with a question mark). -/
structure Request where
  method : Method
  scheme : String
  host : String
  path : String
  query : String
deriving DecidableEq, Repr

/-- `req.uri().to_string()` for an origin-form request: path followed by the
query part. -/
def uriString (req : Request) : String := req.path ++ req.query

/-- Split a character list at every occurrence of `sep`, keeping empty
pieces (the behaviour of Rust `str::split`). -/
def splitOnChar (sep : Char) : List Char → List (List Char)
  | [] => [[]]
  | c :: rest =>
    match splitOnChar sep rest with
    | [] => [[]]
    | p :: ps => if c = sep then [] :: p :: ps else (c :: p) :: ps

/-- The non-empty path segments of a path string: split on the separator,
dropping the empty pieces produced by the leading and trailing separators. -/
def splitPath (p : String) : List String :=
  ((splitOnChar '/' p.data).filter (fun l => l ≠ [])).map (fun l => ⟨l⟩)

/-- Join segments back with single separators (used for the greedy
wildcard capture of the proxy route). -/
def joinSlash : List String → String
  | [] => ""
  | [x] => x
  | x :: y :: ys => x ++ "/" ++ joinSlash (y :: ys)

/-- `NormalizePath`, first half: merge every run of consecutive slashes
into a single slash. -/
def collapseSlashes : List Char → List Char
  | [] => []
  | [c] => [c]
  | a :: b :: rest =>
    if a = '/' ∧ b = '/' then collapseSlashes (b :: rest)
    else a :: collapseSlashes (b :: rest)

/-- `NormalizePath`, second half: append a trailing slash when the path
does not already end with one. -/
def ensureTrailing (l : List Char) : List Char :=
  if l.getLast? = some '/' then l else l ++ ['/']

/-- The path normalizer (`middleware::NormalizePath::default()`): merge
duplicate slashes, then guarantee a trailing slash.  A pure function of
the path alone. -/
def normalizePath (p : String) : String :=
  ⟨ensureTrailing (collapseSlashes p.data)⟩

/-- The request as rewritten by `NormalizePath`: the same request with a
normalized path. -/
def normReq (req : Request) : Request :=
  { req with path := normalizePath req.path }

/-- One path-pattern segment of a registered route:
a literal; a capture `\x7bname\x7d` binding any (non-empty) segment; an
enumerated alternative `\x7bname:a|b|c\x7d`; a length-constrained capture
(the short-link pattern, any segment of 5 to 6 characters); or the greedy
wildcard of the proxy route, consuming the whole remaining path. -/
inductive Segment where
  | lit (s : String)
  | cap (name : String)
  | alt (name : String) (alts : List String)
  | clen (name : String) (lo hi : Nat)
  | rest (name : String)
deriving DecidableEq, Repr

/-- Capture bindings: segment names mapped to matched path text, in
pattern order. -/
abbrev Caps := List (String × String)

/-- Segment-wise matching of a pattern against the path segments of a
normalized path: literals need equality, alternatives need membership,
captures bind the segment, the length capture checks the character count,
and a trailing wildcard consumes (and joins) all remaining segments.
The match succeeds only when pattern and path are consumed together. -/
def matchSegs : List Segment → List String → Option Caps
  | [], [] => some []
  | [], _ :: _ => none
  | [Segment.rest n], xs => some [(n, joinSlash xs)]
  | Segment.rest _ :: _ :: _, _ => none
  | _ :: _, [] => none
  | Segment.lit s :: ps, x :: xs =>
    if x = s then matchSegs ps xs else none
  | Segment.cap n :: ps, x :: xs =>
    (matchSegs ps xs).map (fun caps => (n, x) :: caps)
  | Segment.alt n alts :: ps, x :: xs =>
    if alts.contains x then (matchSegs ps xs).map (fun caps => (n, x) :: caps) else none
  | Segment.clen n lo hi :: ps, x :: xs =>
    if lo ≤ x.length ∧ x.length ≤ hi then (matchSegs ps xs).map (fun caps => (n, x) :: caps)
    else none

/-- The bindings a pattern induces on a list of path segments, written
independently of the matcher: each capture-like segment is bound to the
path segment at its own position, a wildcard to the joined remainder. -/
def bindings : List Segment → List String → Caps
  | Segment.rest n :: _, xs => [(n, joinSlash xs)]
  | Segment.lit _ :: ps, _ :: xs => bindings ps xs
  | Segment.cap n :: ps, x :: xs => (n, x) :: bindings ps xs
  | Segment.alt n _ :: ps, x :: xs => (n, x) :: bindings ps xs
  | Segment.clen n _ _ :: ps, x :: xs => (n, x) :: bindings ps xs
  | _, _ => []

/-- The logical handlers reachable from the route table.  The first six are
the static asset responders defined in `main.rs`; the rest are the external
collaborator endpoints (`proxy.rs`, `user.rs`, `post.rs`, `settings.rs`,
`subreddit.rs`, `search.rs`). -/
inductive Handler where
  | style
  | favicon
  | robots
  | manifest
  | pwa_logo
  | iphone_logo
  | proxy_handler
  | user_profile
  | post_item
  | settings_get
  | settings_set
  | subreddit_page
  | subreddit_subscriptions
  | search_find
  | subreddit_wiki
deriving DecidableEq, Repr

/-- One registered route: method guard, path pattern, handler. -/
structure RouteEntry where
  method : Method
  pattern : List Segment
  handler : Handler
deriving DecidableEq, Repr

/-- The route table of `main.rs`, flattened in registration order (scopes
expanded into full patterns, a scope's routes in their own registration
order).  Every registered pattern ends in a trailing slash, so patterns are
given as the segment lists of their slash-delimited components. -/
def routes : List RouteEntry := [
  ⟨.GET, [.lit "style.css"], .style⟩,
  ⟨.GET, [.lit "favicon.ico"], .favicon⟩,
  ⟨.GET, [.lit "robots.txt"], .robots⟩,
  ⟨.GET, [.lit "manifest.json"], .manifest⟩,
  ⟨.GET, [.lit "logo.png"], .pwa_logo⟩,
  ⟨.GET, [.lit "touch-icon-iphone.png"], .iphone_logo⟩,
  ⟨.GET, [.lit "proxy", .rest "url"], .proxy_handler⟩,
  ⟨.GET, [.alt "scope" ["user", "u"], .cap "username"], .user_profile⟩,
  ⟨.GET, [.alt "scope" ["user", "u"], .cap "username", .lit "comments", .cap "id",
          .cap "title"], .post_item⟩,
  ⟨.GET, [.alt "scope" ["user", "u"], .cap "username", .lit "comments", .cap "id",
          .cap "title", .cap "comment_id"], .post_item⟩,
  ⟨.GET, [.lit "settings"], .settings_get⟩,
  ⟨.POST, [.lit "settings"], .settings_set⟩,
  ⟨.GET, [.lit "r", .cap "sub"], .subreddit_page⟩,
  ⟨.GET, [.lit "r", .cap "sub",
          .alt "sort" ["hot", "new", "top", "rising", "controversial"]], .subreddit_page⟩,
  ⟨.POST, [.lit "r", .cap "sub",
           .alt "action" ["subscribe", "unsubscribe"]], .subreddit_subscriptions⟩,
  ⟨.GET, [.lit "r", .cap "sub", .lit "comments", .cap "id", .cap "title"], .post_item⟩,
  ⟨.GET, [.lit "r", .cap "sub", .lit "comments", .cap "id", .cap "title",
          .cap "comment_id"], .post_item⟩,
  ⟨.GET, [.lit "r", .cap "sub", .lit "search"], .search_find⟩,
  ⟨.GET, [.lit "r", .cap "sub", .alt "scope" ["wiki", "w"]], .subreddit_wiki⟩,
  ⟨.GET, [.lit "r", .cap "sub", .alt "scope" ["wiki", "w"], .cap "page"], .subreddit_wiki⟩,
  ⟨.GET, [], .subreddit_page⟩,
  ⟨.GET, [.alt "sort" ["best", "hot", "new", "top", "rising", "controversial"]],
         .subreddit_page⟩,
  ⟨.GET, [.lit "wiki"], .subreddit_wiki⟩,
  ⟨.GET, [.lit "wiki", .cap "page"], .subreddit_wiki⟩,
  ⟨.GET, [.lit "search"], .search_find⟩,
  ⟨.GET, [.clen "id" 5 6], .post_item⟩
]

/-- Scan the registered routes in order and return the handler and capture
bindings of the first route whose method matches and whose pattern matches
the path segments.  No backtracking, no specificity scoring. -/
def findRoute : List RouteEntry → Method → List String → Option (Handler × Caps)
  | [], _, _ => none
  | e :: rs, m, segs =>
    if e.method = m then
      match matchSegs e.pattern segs with
      | some caps => some (e.handler, caps)
      | none => findRoute rs m segs
    else findRoute rs m segs

/-- An environment giving the behaviour of the external collaborator
handlers (content pages, profiles, search, settings, wiki, proxy): each
receives its capture bindings and the request and returns a response. -/
abbrev Ext := Handler → Caps → Request → Response

/-- Run a matched handler: the six static asset responders are the concrete
functions from `main.rs`; every other handler is an external collaborator
taken from the environment. -/
def runHandler (ext : Ext) (h : Handler) (caps : Caps) (req : Request) : Response :=
  match h with
  | .style => style
  | .favicon => favicon
  | .robots => robots
  | .manifest => manifest
  | .pwa_logo => pwa_logo
  | .iphone_logo => iphone_logo
  | _ => ext h caps req

/-- The router with its default service: dispatch to the first matching
route, or to `error("Nothing here")` when nothing matches.  The default
service ignores the `web::get()` guard it was built from, because actix
invokes a default-service `Route` directly, without consulting its method
guard — so unmatched requests of every method reach it.  The second
component records which route handler (if any) was invoked, and with which
captures. -/
def routerService (ext : Ext) (req : Request) : Response × Option (Handler × Caps) :=
  match findRoute routes req.method (splitPath req.path) with
  | some (h, caps) => (runHandler ext h caps req, some (h, caps))
  | none => (error "Nothing here", none)

/-- The `wrap_fn` registered first (hence innermost, directly around the
router).  As in the source, it computes `secure` and `https_url` from the
request, then calls the wrapped service unconditionally, and only when
mapping the completed response does it substitute the redirect when
`force_https` is set and the scheme was insecure.  The invocation record of
the inner service is passed through untouched: the inner service runs even
when its response is then discarded. -/
def httpsWrap (force_https : Bool) (srv : Request → Response × Option (Handler × Caps))
    (req : Request) : Response × Option (Handler × Caps) :=
  let secure := req.scheme == "https"
  let https_url := "https://" ++ req.host ++ uriString req
  let res := srv req
  (if force_https && !secure then found https_url else res.1, res.2)

/-- One `DefaultHeaders` entry: set the header to its default value only
when the response does not already carry a header with that name. -/
def defaultHeader (r : Response) (n v : String) : Response :=
  if (r.headers.find? (fun p => p.1 == n)).isSome then r
  else { r with headers := r.headers ++ [(n, v)] }

/-- The four fixed security header pairs of the `DefaultHeaders`
middleware. -/
def securityHeaders : List (String × String) :=
  [("Referrer-Policy", "no-referrer"),
   ("X-Content-Type-Options", "nosniff"),
   ("X-Frame-Options", "DENY"),
   ("Content-Security-Policy", csp)]

/-- The `DefaultHeaders` middleware applied to an outgoing response: each
of the four security headers is set unless already present. -/
def applyDefaultHeaders (r : Response) : Response :=
  defaultHeader
    (defaultHeader
      (defaultHeader
        (defaultHeader r "Referrer-Policy" "no-referrer")
        "X-Content-Type-Options" "nosniff")
      "X-Frame-Options" "DENY")
    "Content-Security-Policy" csp

/-- The response the outermost middleware receives: everything inside
`DefaultHeaders`, i.e. path normalization, then the https `wrap_fn`, then
the router. -/
def innerResponse (force_https : Bool) (ext : Ext) (req : Request) : Response :=
  (httpsWrap force_https (routerService ext) (normReq req)).1

/-- The full request pipeline of the `App`: `DefaultHeaders` outermost
(last registered), inside it `NormalizePath`, inside that the https
`wrap_fn`, and the router innermost.  Returns the final response together
with the record of the invoked route handler. -/
def handle (force_https : Bool) (ext : Ext) (req : Request) :
    Response × Option (Handler × Caps) :=
  let inner := httpsWrap force_https (routerService ext) (normReq req)
  (applyDefaultHeaders inner.1, inner.2)

/-- The same pipeline with the scheme-enforcement `wrap_fn` removed
(used to state that, when no redirect fires, the request passes through
to the rest of the pipeline unchanged). -/
def appNoRedirect (ext : Ext) (req : Request) : Response × Option (Handler × Caps) :=
  let inner := routerService ext (normReq req)
  (applyDefaultHeaders inner.1, inner.2)

/-- Rust `arg.split(char)` on a string (keeps empty pieces). -/
def argSplit (sep : Char) (arg : String) : List String :=
  (splitOnChar sep arg.data).map (fun l => ⟨l⟩)

/-- The startup-argument loop of `main`: fold over the argument vector,
matching on the text before the first `=`.  `--address`/`-a` takes the
piece after the first `=` via `Vec` indexing — when the argument contains
no `=` that index is out of bounds, which in Rust aborts the process
(modelled as `none`).  `--redirect-https`/`-r` sets the flag; anything
else is ignored.  The state is `(address, force_https)`. -/
def parseArgs : List String → String × Bool → Option (String × Bool)
  | [], st => some st
  | arg :: rest, st =>
    let parts := argSplit '=' arg
    if parts.headD "" = "--address" ∨ parts.headD "" = "-a" then
      match parts.get? 1 with
      | some v => parseArgs rest (v, st.2)
      | none => none
    else if parts.headD "" = "--redirect-https" ∨ parts.headD "" = "-r" then
      parseArgs rest (st.1, true)
    else parseArgs rest st

/-- Argument parsing from the initial state of `main`:
`address = "0.0.0.0:8080"`, `force_https = false`. -/
def parseConfig (args : List String) : Option (String × Bool) :=
  parseArgs args ("0.0.0.0:8080", false)

/-- A neutral external-handler environment: every external handler answers
200 with an empty header list. -/
def extStub : Ext := fun _ _ _ => { status := 200, headers := [], body := "stub" }

/-- An external-handler environment whose responses already carry an
`X-Frame-Options` header of their own. -/
def extOverride : Ext := fun _ _ _ =>
  { status := 200, headers := [("X-Frame-Options", "ALLOWALL")], body := "page" }

/-- An insecure-scheme request for the subreddit page `/r/aww/`. -/
def reqAww : Request :=
  { method := .GET, scheme := "http", host := "example.com", path := "/r/aww/", query := "" }

/-- A request for the sorted subreddit page `/r/aww/top/`. -/
def reqAwwTop : Request :=
  { method := .GET, scheme := "https", host := "example.com", path := "/r/aww/top/", query := "" }

/-- A request whose sort value is not in the enumerated set. -/
def reqInvalidSort : Request :=
  { method := .GET, scheme := "https", host := "example.com",
    path := "/r/aww/invalidsort/", query := "" }

/-- A request for `/search/`. -/
def reqSearch : Request :=
  { method := .GET, scheme := "https", host := "example.com", path := "/search/", query := "" }

/-- A request for `/rising/`. -/
def reqRising : Request :=
  { method := .GET, scheme := "https", host := "example.com", path := "/rising/", query := "" }

/-- A front-page request. -/
def reqFront : Request :=
  { method := .GET, scheme := "https", host := "example.com", path := "/", query := "" }

/-- A POST request to a path no route matches. -/
def reqPostUnmatched : Request :=
  { method := .POST, scheme := "https", host := "example.com",
    path := "/nonexistent/", query := "" }

/-- A request for the robots policy. -/
def reqRobots : Request :=
  { method := .GET, scheme := "https", host := "example.com", path := "/robots.txt/", query := "" }

/-- A request for the stylesheet. -/
def reqStyle : Request :=
  { method := .GET, scheme := "https", host := "example.com", path := "/style.css/", query := "" }

/-- A request for the PWA manifest. -/
def reqManifest : Request :=
  { method := .GET, scheme := "https", host := "example.com",
    path := "/manifest.json/", query := "" }

/-- A request for the PWA logo. -/
def reqLogo : Request :=
  { method := .GET, scheme := "https", host := "example.com", path := "/logo.png/", query := "" }

/-- A request for the iOS touch icon. -/
def reqTouchIcon : Request :=
  { method := .GET, scheme := "https", host := "example.com",
    path := "/touch-icon-iphone.png/", query := "" }

/-- A request for the favicon. -/
def reqFavicon : Request :=
  { method := .GET, scheme := "https", host := "example.com",
    path := "/favicon.ico/", query := "" }

/-- Two adjacent characters are not both path separators. -/
def noRun (a b : Char) : Prop := a ≠ '/' ∨ b ≠ '/'

theorem collapse_head : ∀ l : List Char, (collapseSlashes l).head? = l.head?
  | [] => rfl
  | [_] => rfl
  | a :: b :: rest => by
    by_cases h : a = '/' ∧ b = '/'
    · have h1 : collapseSlashes (a :: b :: rest) = collapseSlashes (b :: rest) := by
        simp [collapseSlashes, h]
      rw [h1, collapse_head (b :: rest)]
      simp [h.1, h.2]
    · simp [collapseSlashes, h]

theorem collapse_chain : ∀ l : List Char, List.Chain' noRun (collapseSlashes l)
  | [] => by simp [collapseSlashes]
  | [c] => by simp [collapseSlashes]
  | a :: b :: rest => by
    by_cases h : a = '/' ∧ b = '/'
    · have h1 : collapseSlashes (a :: b :: rest) = collapseSlashes (b :: rest) := by
        simp [collapseSlashes, h]
      rw [h1]
      exact collapse_chain (b :: rest)
    · have h1 : collapseSlashes (a :: b :: rest) = a :: collapseSlashes (b :: rest) := by
        simp [collapseSlashes, h]
      rw [h1]
      refine List.chain'_cons'.mpr ⟨?_, collapse_chain (b :: rest)⟩
      intro y hy
      rw [collapse_head (b :: rest)] at hy
      simp only [List.head?_cons, Option.mem_def, Option.some.injEq] at hy
      subst hy
      unfold noRun
      tauto

/-- The normalized path never contains two adjacent separators. -/
theorem normalizePath_chain (p : String) : List.Chain' noRun (normalizePath p).data := by
  show List.Chain' noRun (ensureTrailing (collapseSlashes p.data))
  unfold ensureTrailing
  by_cases h : (collapseSlashes p.data).getLast? = some '/'
  · rw [if_pos h]
    exact collapse_chain p.data
  · rw [if_neg h]
    refine List.chain'_append.mpr ⟨collapse_chain p.data, List.chain'_singleton _, ?_⟩
    intro x hx y hy
    simp only [List.head?_cons, Option.mem_def, Option.some.injEq] at hy
    subst hy
    left
    intro hx'
    subst hx'
    exact h hx

/-- The normalized path ends with a separator. -/
theorem normalizePath_last (p : String) : (normalizePath p).data.getLast? = some '/' := by
  show (ensureTrailing (collapseSlashes p.data)).getLast? = some '/'
  unfold ensureTrailing
  by_cases h : (collapseSlashes p.data).getLast? = some '/'
  · rw [if_pos h]
    exact h
  · rw [if_neg h]
    exact List.getLast?_concat _

theorem dh_of_present (r : Response) (n v : String)
    (h : (r.headers.find? (fun p => p.1 == n)).isSome) : defaultHeader r n v = r := by
  unfold defaultHeader
  rw [if_pos h]

theorem dh_of_absent (r : Response) (n v : String)
    (h : r.headers.find? (fun p => p.1 == n) = none) :
    defaultHeader r n v = { r with headers := r.headers ++ [(n, v)] } := by
  unfold defaultHeader
  rw [if_neg]
  simp [h]

theorem headerVal_dh_self_some (r : Response) (n v w : String)
    (h : headerVal r n = some w) : headerVal (defaultHeader r n v) n = some w := by
  rw [dh_of_present]
  · exact h
  · unfold headerVal at h
    rcases Option.map_eq_some'.mp h with ⟨q, hq, _⟩
    simp [hq]

theorem headerVal_dh_self_none (r : Response) (n v : String)
    (h : headerVal r n = none) : headerVal (defaultHeader r n v) n = some v := by
  have hf : r.headers.find? (fun p => p.1 == n) = none := by
    unfold headerVal at h
    exact Option.map_eq_none'.mp h
  rw [dh_of_absent r n v hf]
  unfold headerVal
  simp [List.find?_append, hf, List.find?]

theorem headerVal_dh_self_isSome (r : Response) (n v : String) :
    (headerVal (defaultHeader r n v) n).isSome = true := by
  cases h : headerVal r n with
  | none => rw [headerVal_dh_self_none r n v h]; rfl
  | some w => rw [headerVal_dh_self_some r n v w h]; rfl

theorem headerVal_dh_other (r : Response) (n n' v : String) (h : ¬ n = n') :
    headerVal (defaultHeader r n' v) n = headerVal r n := by
  unfold defaultHeader
  split
  · rfl
  · unfold headerVal
    have hb : ((n' : String) == n) = false := beq_eq_false_iff_ne.mpr (Ne.symm h)
    simp [List.find?_append, List.find?, hb]

theorem dh_status (r : Response) (n v : String) : (defaultHeader r n v).status = r.status := by
  unfold defaultHeader
  split <;> rfl

theorem dh_body (r : Response) (n v : String) : (defaultHeader r n v).body = r.body := by
  unfold defaultHeader
  split <;> rfl

theorem adh_status (r : Response) : (applyDefaultHeaders r).status = r.status := by
  unfold applyDefaultHeaders
  rw [dh_status, dh_status, dh_status, dh_status]

theorem adh_body (r : Response) : (applyDefaultHeaders r).body = r.body := by
  unfold applyDefaultHeaders
  rw [dh_body, dh_body, dh_body, dh_body]

theorem headerVal_adh_location (url : String) :
    headerVal (applyDefaultHeaders (found url)) "Location" = some url := by
  unfold applyDefaultHeaders
  rw [headerVal_dh_other _ _ _ _ (by decide), headerVal_dh_other _ _ _ _ (by decide),
    headerVal_dh_other _ _ _ _ (by decide), headerVal_dh_other _ _ _ _ (by decide)]
  rfl

theorem adh_rp (r : Response) :
    (headerVal (applyDefaultHeaders r) "Referrer-Policy").isSome = true
  ∧ (headerVal r "Referrer-Policy" = none →
      headerVal (applyDefaultHeaders r) "Referrer-Policy" = some "no-referrer") := by
  unfold applyDefaultHeaders
  rw [headerVal_dh_other _ _ _ _ (by decide), headerVal_dh_other _ _ _ _ (by decide),
    headerVal_dh_other _ _ _ _ (by decide)]
  exact ⟨headerVal_dh_self_isSome r _ _, fun h => headerVal_dh_self_none r _ _ h⟩

theorem adh_xcto (r : Response) :
    (headerVal (applyDefaultHeaders r) "X-Content-Type-Options").isSome = true
  ∧ (headerVal r "X-Content-Type-Options" = none →
      headerVal (applyDefaultHeaders r) "X-Content-Type-Options" = some "nosniff") := by
  unfold applyDefaultHeaders
  rw [headerVal_dh_other _ _ _ _ (by decide), headerVal_dh_other _ _ _ _ (by decide)]
  constructor
  · exact headerVal_dh_self_isSome _ _ _
  · intro h
    have h1 : headerVal (defaultHeader r "Referrer-Policy" "no-referrer")
        "X-Content-Type-Options" = none := by
      rw [headerVal_dh_other _ _ _ _ (by decide)]
      exact h
    exact headerVal_dh_self_none _ _ _ h1

theorem adh_xfo (r : Response) :
    (headerVal (applyDefaultHeaders r) "X-Frame-Options").isSome = true
  ∧ (headerVal r "X-Frame-Options" = none →
      headerVal (applyDefaultHeaders r) "X-Frame-Options" = some "DENY") := by
  unfold applyDefaultHeaders
  rw [headerVal_dh_other _ _ _ _ (by decide)]
  constructor
  · exact headerVal_dh_self_isSome _ _ _
  · intro h
    have h1 : headerVal (defaultHeader (defaultHeader r "Referrer-Policy" "no-referrer")
        "X-Content-Type-Options" "nosniff") "X-Frame-Options" = none := by
      rw [headerVal_dh_other _ _ _ _ (by decide), headerVal_dh_other _ _ _ _ (by decide)]
      exact h
    exact headerVal_dh_self_none _ _ _ h1

theorem adh_csp (r : Response) :
    (headerVal (applyDefaultHeaders r) "Content-Security-Policy").isSome = true
  ∧ (headerVal r "Content-Security-Policy" = none →
      headerVal (applyDefaultHeaders r) "Content-Security-Policy" = some csp) := by
  unfold applyDefaultHeaders
  constructor
  · exact headerVal_dh_self_isSome _ _ _
  · intro h
    have h1 : headerVal (defaultHeader (defaultHeader (defaultHeader r
        "Referrer-Policy" "no-referrer") "X-Content-Type-Options" "nosniff")
        "X-Frame-Options" "DENY") "Content-Security-Policy" = none := by
      rw [headerVal_dh_other _ _ _ _ (by decide), headerVal_dh_other _ _ _ _ (by decide),
        headerVal_dh_other _ _ _ _ (by decide)]
      exact h
    exact headerVal_dh_self_none _ _ _ h1

theorem routerService_snd (ext : Ext) (req : Request) :
    (routerService ext req).2 = findRoute routes req.method (splitPath req.path) := by
  unfold routerService
  cases h : findRoute routes req.method (splitPath req.path) with
  | none => simp [h]
  | some hc =>
    obtain ⟨hh, caps⟩ := hc
    simp [h]

theorem matchSegs_eq_bindings : ∀ (ps : List Segment) (xs : List String) (caps : Caps),
    matchSegs ps xs = some caps → caps = bindings ps xs := by
  intro ps
  induction ps with
  | nil =>
    intro xs caps h
    cases xs with
    | nil =>
      simp [matchSegs] at h
      simp [bindings, ← h]
    | cons x xs => simp [matchSegs] at h
  | cons s ps ih =>
    intro xs caps h
    cases s with
    | lit s' =>
      cases xs with
      | nil => simp [matchSegs] at h
      | cons x xs =>
        simp only [matchSegs] at h
        split at h
        · rw [ih xs caps h]
          simp [bindings]
        · exact absurd h (by simp)
    | cap n =>
      cases xs with
      | nil => simp [matchSegs] at h
      | cons x xs =>
        simp only [matchSegs, Option.map_eq_some'] at h
        obtain ⟨c', hc', rfl⟩ := h
        rw [ih xs c' hc']
        simp [bindings]
    | alt n alts =>
      cases xs with
      | nil => simp [matchSegs] at h
      | cons x xs =>
        simp only [matchSegs] at h
        split at h
        · rw [Option.map_eq_some'] at h
          obtain ⟨c', hc', rfl⟩ := h
          rw [ih xs c' hc']
          simp [bindings]
        · exact absurd h (by simp)
    | clen n lo hi =>
      cases xs with
      | nil => simp [matchSegs] at h
      | cons x xs =>
        simp only [matchSegs] at h
        split at h
        · rw [Option.map_eq_some'] at h
          obtain ⟨c', hc', rfl⟩ := h
          rw [ih xs c' hc']
          simp [bindings]
        · exact absurd h (by simp)
    | rest n =>
      cases ps with
      | nil =>
        simp only [matchSegs, Option.some.injEq] at h
        simp [bindings, ← h]
      | cons p' ps' => simp [matchSegs] at h

theorem findRoute_eq_find? : ∀ (l : List RouteEntry) (m : Method) (segs : List String),
    findRoute l m segs =
      (l.find? (fun e => e.method == m && (matchSegs e.pattern segs).isSome)).bind
        (fun e => (matchSegs e.pattern segs).map (fun caps => (e.handler, caps))) := by
  intro l m segs
  induction l with
  | nil => rfl
  | cons e rs ih =>
    by_cases hm : e.method = m
    · cases hms : matchSegs e.pattern segs with
      | some caps =>
        rw [List.find?_cons_of_pos _ (by simp [hm, hms])]
        simp [findRoute, hm, hms]
      | none =>
        rw [List.find?_cons_of_neg _ (by simp [hms])]
        rw [← ih]
        simp [findRoute, hm, hms]
    · rw [List.find?_cons_of_neg _ (by simp [hm])]
      rw [← ih]
      simp [findRoute, hm]

theorem parseArgs_total : ∀ (args : List String) (st : String × Bool),
    (∀ arg ∈ args,
      ((argSplit '=' arg).headD "" = "--address" ∨ (argSplit '=' arg).headD "" = "-a") →
      2 ≤ (argSplit '=' arg).length) →
    (parseArgs args st).isSome = true := by
  intro args
  induction args with
  | nil => intro st _; rfl
  | cons arg rest ih =>
    intro st h
    simp only [parseArgs]
    by_cases ha : (argSplit '=' arg).headD "" = "--address" ∨ (argSplit '=' arg).headD "" = "-a"
    · rw [if_pos ha]
      have hlen : 1 < (argSplit '=' arg).length := h arg (List.mem_cons_self _ _) ha
      rw [List.get?_eq_get hlen]
      exact ih _ (fun a hmem => h a (List.mem_cons_of_mem _ hmem))
    · rw [if_neg ha]
      by_cases hr : (argSplit '=' arg).headD "" = "--redirect-https"
          ∨ (argSplit '=' arg).headD "" = "-r"
      · rw [if_pos hr]
        exact ih _ (fun a hmem => h a (List.mem_cons_of_mem _ hmem))
      · rw [if_neg hr]
        exact ih _ (fun a hmem => h a (List.mem_cons_of_mem _ hmem))

/-- Claim C1, counterexample.  With `forceSecureScheme` on and an insecure
request to `/r/aww/`, the pipeline produces the scheme redirect (status
302) and nevertheless the matched subreddit handler was invoked with its
captures — the `wrap_fn` calls the wrapped service before deciding — so
"the matched route handler is never invoked on the redirect path" is false
at this input. -/
theorem spec_c1_cx :
    (handle true extStub reqAww).1.status = 302
  ∧ (handle true extStub reqAww).2 = some (Handler.subreddit_page, [("sub", "aww")])
  ∧ (handle true extStub reqAww).2 ≠ none := by
  refine ⟨by decide, by decide, by decide⟩

/-- Claim C1, amended.  For an insecure-scheme request with
`forceSecureScheme` on: the redirect response is constructed from
request-time data only and does not depend on the inner handlers (the
final response is identical under any two handler environments, and is a
302); but the downstream routing pipeline is still executed — the record
of the invoked route handler is exactly the route-table match for the
request, rather than `none`. -/
theorem spec_c1_amended (ext ext2 : Ext) (req : Request) (h : req.scheme ≠ "https") :
    (handle true ext req).1 = (handle true ext2 req).1
  ∧ (handle true ext req).1.status = 302
  ∧ (handle true ext req).2 = findRoute routes req.method (splitPath (normalizePath req.path)) := by
  have hb : (req.scheme == "https") = false := beq_eq_false_iff_ne.mpr h
  refine ⟨?_, ?_, ?_⟩
  · simp [handle, httpsWrap, normReq, hb]
  · have e1 : (handle true ext req).1 =
        applyDefaultHeaders (found ("https://" ++ req.host ++ uriString (normReq req))) := by
      simp [handle, httpsWrap, normReq, hb]
    rw [e1, adh_status]
    rfl
  · exact routerService_snd ext (normReq req)

/-- Claim C1, witness for the amended statement. -/
theorem spec_c1_amended_w :
    (handle true extStub reqAww).1 = (handle true extOverride reqAww).1
  ∧ (handle true extStub reqAww).1.status = 302
  ∧ (handle true extStub reqAww).2 =
      findRoute routes reqAww.method (splitPath (normalizePath reqAww.path)) :=
  spec_c1_amended extStub extOverride reqAww (by decide)

/-- Claim C2: a request receives the scheme redirect exactly when
`force_https` is set and the resolved scheme is insecure, and then the
response is a 302 Found whose Location is the https URL with the same
host and the same (normalized) path and query; otherwise the pipeline
behaves exactly as the same pipeline without the scheme middleware. -/
theorem spec_c2 (fh : Bool) (ext : Ext) (req : Request) :
    ((fh && !(req.scheme == "https")) = true →
        (handle fh ext req).1.status = 302
      ∧ (handle fh ext req).1.body = ""
      ∧ headerVal (handle fh ext req).1 "Location" =
          some ("https://" ++ req.host ++ (normalizePath req.path ++ req.query)))
  ∧ ((fh && !(req.scheme == "https")) = false →
        handle fh ext req = appNoRedirect ext req) := by
  constructor
  · intro h
    have e1 : (handle fh ext req).1 =
        applyDefaultHeaders (found ("https://" ++ req.host ++
          (normalizePath req.path ++ req.query))) := by
      simp [handle, httpsWrap, normReq, uriString, h]
    refine ⟨?_, ?_, ?_⟩
    · rw [e1, adh_status]; rfl
    · rw [e1, adh_body]; rfl
    · rw [e1, headerVal_adh_location]
  · intro h
    simp [handle, appNoRedirect, httpsWrap, normReq, h]

/-- Claim C2, witness: the redirect branch at a concrete insecure request,
and the pass-through branch at a concrete secure request. -/
theorem spec_c2_w :
    ((handle true extStub reqAww).1.status = 302
   ∧ (handle true extStub reqAww).1.body = ""
   ∧ headerVal (handle true extStub reqAww).1 "Location" =
       some ("https://" ++ reqAww.host ++ (normalizePath reqAww.path ++ reqAww.query)))
  ∧ handle false extStub reqFront = appNoRedirect extStub reqFront :=
  ⟨(spec_c2 true extStub reqAww).1 (by decide), (spec_c2 false extStub reqFront).2 (by decide)⟩

/-- Claim C3, counterexample.  `DefaultHeaders` does not overwrite a header
the downstream handler already set: with a handler environment that sets
its own `X-Frame-Options`, the outgoing front-page response carries
`ALLOWALL`, not the specified `DENY` — so "appended unconditionally and
not overridable by downstream handlers" is false. -/
theorem spec_c3_cx :
    headerVal (handle false extOverride reqFront).1 "X-Frame-Options" = some "ALLOWALL"
  ∧ some "ALLOWALL" ≠ some "DENY" := by
  refine ⟨by decide, by decide⟩

/-- Claim C3, amended.  Every outgoing response — any flag value, any
handler environment, any request, including redirects and the default
responder — carries each of the four security header names; and whenever
the response reaching `DefaultHeaders` does not already carry that name,
the header is appended with exactly the specified value (the middleware
sets defaults, it does not overwrite). -/
theorem spec_c3_amended (fh : Bool) (ext : Ext) (req : Request) (p : String × String)
    (hmem : p ∈ securityHeaders) :
    (headerVal (handle fh ext req).1 p.1).isSome = true
  ∧ (headerVal (innerResponse fh ext req) p.1 = none →
      headerVal (handle fh ext req).1 p.1 = some p.2) := by
  have e1 : (handle fh ext req).1 = applyDefaultHeaders (innerResponse fh ext req) := rfl
  rw [e1]
  simp only [securityHeaders, csp, List.mem_cons, List.not_mem_nil, or_false] at hmem
  rcases hmem with rfl | rfl | rfl | rfl
  · exact adh_rp _
  · exact adh_xcto _
  · exact adh_xfo _
  · exact adh_csp _

/-- Claim C3, witness for the amended statement. -/
theorem spec_c3_amended_w :
    (headerVal (handle false extStub reqFront).1 "Referrer-Policy").isSome = true
  ∧ headerVal (handle false extStub reqFront).1 "Referrer-Policy" = some "no-referrer" :=
  ⟨(spec_c3_amended false extStub reqFront ("Referrer-Policy", "no-referrer") (by decide)).1,
   (spec_c3_amended false extStub reqFront ("Referrer-Policy", "no-referrer") (by decide)).2
     (by decide)⟩

/-- Claim C4: for every raw path the normalizer yields a path with no two
adjacent separators whose final character is a single separator (one is
appended when absent); `/r//aww//` normalizes to `/r/aww/`; and the
pipeline always matches routes against the normalized path. -/
theorem spec_c4 :
    (∀ p : String,
        List.Chain' noRun (normalizePath p).data
      ∧ (normalizePath p).data.getLast? = some '/')
  ∧ normalizePath "/r//aww//" = "/r/aww/"
  ∧ (∀ (fh : Bool) (ext : Ext) (req : Request),
      (handle fh ext req).2 = findRoute routes req.method (splitPath (normalizePath req.path))) :=
  ⟨fun p => ⟨normalizePath_chain p, normalizePath_last p⟩, by decide,
   fun _ ext req => routerService_snd ext (normReq req)⟩

/-- Claim C5: whenever the matcher accepts a pattern against a segment
list, the returned captures bind every capture-like segment to the path
segment at its position (and a wildcard to the joined remainder); and the
concrete request `GET /r/aww/top/` dispatches to the subreddit page
handler with `sub="aww"` and `sort="top"`. -/
theorem spec_c5 :
    (∀ (ps : List Segment) (xs : List String) (caps : Caps),
        matchSegs ps xs = some caps → caps = bindings ps xs)
  ∧ (handle false extStub reqAwwTop).2 =
      some (Handler.subreddit_page, [("sub", "aww"), ("sort", "top")]) :=
  ⟨matchSegs_eq_bindings, by decide⟩

/-- Claim C5, witness: the capture-extraction property at the concrete
sort-route pattern and the segments of `/r/aww/top/`. -/
theorem spec_c5_w :
    [("sub", "aww"), ("sort", "top")] =
      bindings [Segment.lit "r", Segment.cap "sub",
        Segment.alt "sort" ["hot", "new", "top", "rising", "controversial"]]
        ["r", "aww", "top"] :=
  spec_c5.1 [Segment.lit "r", Segment.cap "sub",
    Segment.alt "sort" ["hot", "new", "top", "rising", "controversial"]]
    ["r", "aww", "top"] [("sub", "aww"), ("sort", "top")] (by decide)

/-- Claim C6: `GET /r/aww/invalidsort/` — whose third segment is outside
the enumerated sort set — matches no route: no handler is invoked and the
default responder answers with the non-success "Nothing here" page. -/
theorem spec_c6 :
    (handle false extStub reqInvalidSort).2 = none
  ∧ (handle false extStub reqInvalidSort).1.status = 404
  ∧ (handle false extStub reqInvalidSort).1.body = "Nothing here" := by
  refine ⟨by decide, by decide, by decide⟩

/-- Claim C7: route selection is first-match in registration order — the
scan equals taking the first registered entry whose method and pattern
match, with no scoring; concretely, the short-link pattern also matches
`/search/` and `/rising/`, yet `GET /search/` dispatches to the search
handler and `GET /rising/` to the front-page sort route, both registered
earlier. -/
theorem spec_c7 :
    (∀ (l : List RouteEntry) (m : Method) (segs : List String),
        findRoute l m segs =
          (l.find? (fun e => e.method == m && (matchSegs e.pattern segs).isSome)).bind
            (fun e => (matchSegs e.pattern segs).map (fun caps => (e.handler, caps))))
  ∧ (matchSegs [Segment.clen "id" 5 6] (splitPath "/search/")).isSome = true
  ∧ (handle false extStub reqSearch).2 = some (Handler.search_find, [])
  ∧ (matchSegs [Segment.clen "id" 5 6] (splitPath "/rising/")).isSome = true
  ∧ (handle false extStub reqRising).2 = some (Handler.subreddit_page, [("sort", "rising")]) :=
  ⟨findRoute_eq_find?, by decide, by decide, by decide, by decide⟩

/-- Claim C8: when no registered route matches the normalized path for the
request's method — any method, not only GET, because the default-service
route's method guard is never consulted — the pipeline invokes no route
handler and answers with the default responder's non-success
"Nothing here" page. -/
theorem spec_c8 (fh : Bool) (ext : Ext) (req : Request)
    (hsec : fh = true → req.scheme = "https")
    (hmatch : findRoute routes req.method (splitPath (normalizePath req.path)) = none) :
    (handle fh ext req).1.status = 404
  ∧ (handle fh ext req).1.body = "Nothing here"
  ∧ (handle fh ext req).2 = none := by
  have hcond : (fh && !(req.scheme == "https")) = false := by
    cases fh with
    | false => rfl
    | true =>
      have hs := hsec rfl
      simp [hs]
  have e1 : handle fh ext req = appNoRedirect ext req := by
    simp [handle, appNoRedirect, httpsWrap, normReq, hcond]
  rw [e1]
  have e2 : routerService ext (normReq req) = (error "Nothing here", none) := by
    unfold routerService
    have : findRoute routes (normReq req).method (splitPath (normReq req).path) = none := hmatch
    rw [this]
  unfold appNoRedirect
  rw [e2]
  refine ⟨?_, ?_, rfl⟩
  · rw [adh_status]; rfl
  · rw [adh_body]; rfl

/-- Claim C8, witness: a POST request to an unmatched path reaches the
default responder. -/
theorem spec_c8_w :
    (handle true extStub reqPostUnmatched).1.status = 404
  ∧ (handle true extStub reqPostUnmatched).1.body = "Nothing here"
  ∧ (handle true extStub reqPostUnmatched).2 = none :=
  spec_c8 true extStub reqPostUnmatched (fun _ => rfl) (by decide)

/-- Claim C9, counterexample.  The robots route's builder sets no content
type at all, so its response carries no `Content-Type` header even though
it serves its fixed payload — the claim's "with its fixed content-type"
fails for the robots route. -/
theorem spec_c9_cx :
    headerVal (handle false extStub reqRobots).1 "Content-Type" = none
  ∧ (handle false extStub reqRobots).1.body = "User-agent: *\nAllow: /" := by
  refine ⟨by decide, by decide⟩

/-- Claim C9, amended.  Independently of the handler environment, each
static asset route deterministically serves its compiled-in payload; the
stylesheet, manifest, the two icons and the favicon carry their fixed
content types; robots carries no explicit content type; and the robots and
favicon routes carry the public-caching `Cache-Control` value. -/
theorem spec_c9_amended : ∀ ext : Ext,
    ((handle false ext reqStyle).1.body = style_css
   ∧ headerVal (handle false ext reqStyle).1 "Content-Type" = some "text/css")
  ∧ ((handle false ext reqManifest).1.body = manifest_json
   ∧ headerVal (handle false ext reqManifest).1 "Content-Type" = some "application/json")
  ∧ ((handle false ext reqLogo).1.body = logo_png
   ∧ headerVal (handle false ext reqLogo).1 "Content-Type" = some "image/png")
  ∧ ((handle false ext reqTouchIcon).1.body = touch_icon_iphone_png
   ∧ headerVal (handle false ext reqTouchIcon).1 "Content-Type" = some "image/png")
  ∧ ((handle false ext reqRobots).1.body = "User-agent: *\nAllow: /"
   ∧ headerVal (handle false ext reqRobots).1 "Cache-Control" =
       some "public, max-age=1209600, s-maxage=86400")
  ∧ ((handle false ext reqFavicon).1.body = favicon_ico
   ∧ headerVal (handle false ext reqFavicon).1 "Content-Type" = some "image/x-icon"
   ∧ headerVal (handle false ext reqFavicon).1 "Cache-Control" =
       some "public, max-age=1209600, s-maxage=86400") :=
  fun _ => ⟨⟨rfl, rfl⟩, ⟨rfl, rfl⟩, ⟨rfl, rfl⟩, ⟨rfl, rfl⟩, ⟨rfl, rfl⟩, ⟨rfl, rfl, rfl⟩⟩

/-- Claim C10, counterexample.  An argument equal to `--address` with no
`=` makes the parser index past the end of the split vector, which in the
source aborts the process — parsing does not complete for this argument
vector. -/
theorem spec_c10_cx : parseConfig ["libreddit", "--address"] = none := by decide

/-- Claim C10, amended.  Argument parsing completes for every argument
vector in which each `--address`/`-a` argument contains an `=`; repeated
and unknown arguments are ignored, `--redirect-https` sets the flag, and
`--address=`/`-a=` set the bind address from the text after the first `=`
(the last occurrence winning) — but an `--address`/`-a` argument without
`=` aborts. -/
theorem spec_c10_amended :
    (∀ (args : List String) (st : String × Bool),
        (∀ arg ∈ args,
          ((argSplit '=' arg).headD "" = "--address" ∨ (argSplit '=' arg).headD "" = "-a") →
          2 ≤ (argSplit '=' arg).length) →
        (parseArgs args st).isSome = true)
  ∧ parseConfig ["libreddit", "--redirect-https"] = some ("0.0.0.0:8080", true)
  ∧ parseConfig ["libreddit", "-a=127.0.0.1:80"] = some ("127.0.0.1:80", false)
  ∧ parseConfig ["libreddit", "--bogus", "--bogus"] = some ("0.0.0.0:8080", false)
  ∧ parseConfig ["libreddit", "--address=a:1", "--address=b:2"] = some ("b:2", false) :=
  ⟨parseArgs_total, by decide, by decide, by decide, by decide⟩

/-- Claim C10, witness for the amended statement. -/
theorem spec_c10_amended_w :
    (parseArgs ["libreddit", "-a=127.0.0.1:80"] ("0.0.0.0:8080", false)).isSome = true :=
  spec_c10_amended.1 ["libreddit", "-a=127.0.0.1:80"] ("0.0.0.0:8080", false) (by decide)

end Libreddit
